import Mathlib

/-!
Shallow embedding of `onnxruntime-sys/build.rs` (the build-time artifact
resolution and acquisition pipeline) and proofs of the specification claims.

File system state is modelled explicitly as a record of existing file paths
and directory paths; paths are lists of components.  External side effects
(network requests, archive extraction, git work, subprocess spawns) are
recorded in an event trace.  A Rust `panic!` / `.unwrap()` / `.expect` abort
is modelled as `Except.error` carrying the panic message; the recoverable
transport error of `android::download_prebuilt` (the one `?` that
`setup` catches with `unwrap_or_else`) is a nested `Except Unit`.
-/

namespace OnnxBuild

/-- `const ORT_VERSION: &str = "1.11.1";` -/
def ORT_VERSION : String := "1.11.1"

/-- `const ORT_RELEASE_BASE_URL` -/
def ORT_RELEASE_BASE_URL : String :=
  "https://github.com/microsoft/onnxruntime/releases/download"

/-- `const ORT_ENV_STRATEGY: &str = "ORT_STRATEGY";` -/
def ORT_ENV_STRATEGY : String := "ORT_STRATEGY"

/-- `const ORT_ENV_SYSTEM_LIB_LOCATION: &str = "ORT_LIB_LOCATION";` -/
def ORT_ENV_SYSTEM_LIB_LOCATION : String := "ORT_LIB_LOCATION"

/-- `const ORT_PREBUILT_EXTRACT_DIR: &str = "onnxruntime";` -/
def ORT_PREBUILT_EXTRACT_DIR : String := "onnxruntime"

/-- `const ANDROID_API_LEVEL: u32 = 27;` -/
def ANDROID_API_LEVEL : Nat := 27

/-- Rust `str::to_lowercase` (ASCII-faithful, which covers every string the
build script matches on). -/
def to_lowercase (s : String) : String := String.mk (s.data.map Char.toLower)

/-- `enum Architecture` -/
inductive Architecture
  | X86
  | X86_64
  | Arm
  | Arm64
deriving DecidableEq

/-- `{:?}` (derived Debug) rendering of `Architecture`. -/
def Architecture.debug_str : Architecture → String
  | .X86 => "X86"
  | .X86_64 => "X86_64"
  | .Arm => "Arm"
  | .Arm64 => "Arm64"

/-- `impl FromStr for Architecture` -/
def Architecture.from_str (s : String) : Except String Architecture :=
  match to_lowercase s with
  | "x86" => .ok .X86
  | "x86_64" => .ok .X86_64
  | "arm" => .ok .Arm
  | "aarch64" => .ok .Arm64
  | _ => .error ("Unsupported architecture: " ++ s)

/-- `impl OnnxPrebuiltArchive for Architecture` -/
def Architecture.as_onnx_str : Architecture → String
  | .X86 => "x86"
  | .X86_64 => "x64"
  | .Arm => "arm"
  | .Arm64 => "arm64"

/-- `enum Os` -/
inductive Os
  | Windows
  | Linux
  | MacOs
deriving DecidableEq

/-- `{:?}` (derived Debug) rendering of `Os`. -/
def Os.debug_str : Os → String
  | .Windows => "Windows"
  | .Linux => "Linux"
  | .MacOs => "MacOs"

/-- `Os::archive_extension` -/
def Os.archive_extension : Os → String
  | .Windows => "zip"
  | .Linux => "tgz"
  | .MacOs => "tgz"

/-- `impl FromStr for Os` -/
def Os.from_str (s : String) : Except String Os :=
  match to_lowercase s with
  | "windows" => .ok .Windows
  | "macos" => .ok .MacOs
  | "linux" => .ok .Linux
  | _ => .error ("Unsupported os: " ++ s)

/-- `impl OnnxPrebuiltArchive for Os` -/
def Os.as_onnx_str : Os → String
  | .Windows => "win"
  | .Linux => "linux"
  | .MacOs => "osx"

/-- `enum Accelerator` -/
inductive Accelerator
  | None
  | Gpu
deriving DecidableEq

/-- `{:?}` (derived Debug) rendering of `Accelerator`. -/
def Accelerator.debug_str : Accelerator → String
  | .None => "None"
  | .Gpu => "Gpu"

/-- `impl FromStr for Accelerator` (never fails: unrecognized means no GPU). -/
def Accelerator.from_str (s : String) : Except String Accelerator :=
  match to_lowercase s with
  | "1" => .ok .Gpu
  | "yes" => .ok .Gpu
  | "true" => .ok .Gpu
  | "on" => .ok .Gpu
  | _ => .ok .None

/-- `impl OnnxPrebuiltArchive for Accelerator` -/
def Accelerator.as_onnx_str : Accelerator → String
  | .None => ""
  | .Gpu => "gpu"

/-- `struct Triplet` -/
structure Triplet where
  os : Os
  arch : Architecture
  accelerator : Accelerator
deriving DecidableEq

/-- The panic message of the wildcard arm of `Triplet::as_onnx_str`. -/
def Triplet.unsupported_msg (t : Triplet) : String :=
  "Unsupported prebuilt triplet: " ++ t.os.debug_str ++ ", " ++ t.arch.debug_str
    ++ ", " ++ t.accelerator.debug_str ++ ". Please use " ++ ORT_ENV_STRATEGY
    ++ "=system and " ++ ORT_ENV_SYSTEM_LIB_LOCATION ++ "=/path/to/onnxruntime"

/-- `impl OnnxPrebuiltArchive for Triplet` (the wildcard `panic!` arm is an
`Except.error` carrying the panic message). -/
def Triplet.as_onnx_str (t : Triplet) : Except String String :=
  match t.os, t.arch, t.accelerator with
  | .Windows, .X86, .None =>
      .ok (t.os.as_onnx_str ++ "-" ++ t.arch.as_onnx_str)
  | .Windows, .X86_64, .None =>
      .ok (t.os.as_onnx_str ++ "-" ++ t.arch.as_onnx_str)
  | .Windows, .Arm, .None =>
      .ok (t.os.as_onnx_str ++ "-" ++ t.arch.as_onnx_str)
  | .Windows, .Arm64, .None =>
      .ok (t.os.as_onnx_str ++ "-" ++ t.arch.as_onnx_str)
  | .Linux, .X86_64, .None =>
      .ok (t.os.as_onnx_str ++ "-" ++ t.arch.as_onnx_str)
  | .MacOs, .X86_64, .None =>
      .ok (t.os.as_onnx_str ++ "-" ++ t.arch.as_onnx_str)
  | .Windows, .X86_64, .Gpu =>
      .ok (t.os.as_onnx_str ++ "-" ++ t.accelerator.as_onnx_str ++ "-"
        ++ t.arch.as_onnx_str)
  | .Linux, .X86_64, .Gpu =>
      .ok (t.os.as_onnx_str ++ "-" ++ t.arch.as_onnx_str ++ "-"
        ++ t.accelerator.as_onnx_str)
  | _, _, _ => .error t.unsupported_msg

/-- The enumerated valid table of `Triplet::as_onnx_str`, in source order. -/
def validTriplets : List Triplet :=
  [ ⟨.Windows, .X86, .None⟩, ⟨.Windows, .X86_64, .None⟩,
    ⟨.Windows, .Arm, .None⟩, ⟨.Windows, .Arm64, .None⟩,
    ⟨.Linux, .X86_64, .None⟩, ⟨.MacOs, .X86_64, .None⟩,
    ⟨.Windows, .X86_64, .Gpu⟩, ⟨.Linux, .X86_64, .Gpu⟩ ]

/-- `prebuilt_archive_url`, parameterized by the environment values it reads:
`CARGO_CFG_TARGET_OS`, `CARGO_CFG_TARGET_ARCH`, and `ORT_USE_CUDA` (the
latter is `""` when the variable is absent, from `unwrap_or_default`).
Returns the archive file name and the URL; `.error` models the `.unwrap()`
panics on parse failure or unsupported triplet. -/
def prebuilt_archive_url (target_os target_arch ort_use_cuda : String) :
    Except String (String × String) := do
  let os ← Os.from_str target_os
  let arch ← Architecture.from_str target_arch
  let accelerator ← Accelerator.from_str ort_use_cuda
  let triplet : Triplet := ⟨os, arch, accelerator⟩
  let tok ← triplet.as_onnx_str
  let prebuilt_archive :=
    "onnxruntime-" ++ tok ++ "-" ++ ORT_VERSION ++ "." ++ os.archive_extension
  let prebuilt_url :=
    ORT_RELEASE_BASE_URL ++ "/v" ++ ORT_VERSION ++ "/" ++ prebuilt_archive
  .ok (prebuilt_archive, prebuilt_url)

/-- A filesystem path, as a list of components (relative to an abstract
filesystem root). -/
abbrev FilePath' := List String

/-- The modelled filesystem: which file paths and which directory paths
exist.  Existence on disk is the only property the build script queries. -/
structure FS where
  files : List FilePath'
  dirs : List FilePath'
deriving DecidableEq

/-- External side effects the build script can perform, recorded in order. -/
inductive Event
  /-- An HTTP request to `url` was issued (`ureq::get(url).call()`). -/
  | net (url : String)
  /-- An archive was unpacked into a destination directory. -/
  | extractArchive (archive : FilePath') (dest : FilePath')
  /-- Git work: clone/open of the upstream repository plus tag checkout. -/
  | git
  /-- The external cross-build subprocess (`sh build.sh --android ...`)
  was spawned. -/
  | spawn
deriving DecidableEq

/-- Result of a stateful step: the event trace it emitted, the filesystem it
left behind, and either a value or a fatal panic message. -/
structure Res (α : Type) where
  evs : List Event
  fs : FS
  val : Except String α

def FS.hasFile (fs : FS) (p : FilePath') : Bool := fs.files.contains p

def FS.hasDir (fs : FS) (p : FilePath') : Bool := fs.dirs.contains p

def FS.addFile (fs : FS) (p : FilePath') : FS := ⟨fs.files ++ [p], fs.dirs⟩

def FS.addDir (fs : FS) (p : FilePath') : FS := ⟨fs.files, fs.dirs ++ [p]⟩

/-- `fs::copy(src, dst).unwrap()`: succeeds (adding `dst`) iff `src` exists. -/
def FS.copy (fs : FS) (src dst : FilePath') : Except String FS :=
  if fs.hasFile src then .ok (fs.addFile dst)
  else .error ("Failed to copy " ++ String.intercalate "/" src)

/-- `fs::create_dir(p).unwrap()`: fails if the directory already exists. -/
def FS.create_dir (fs : FS) (p : FilePath') : Except String FS :=
  if fs.hasDir p then .error ("Failed to create dir " ++ String.intercalate "/" p)
  else .ok (fs.addDir p)

/-- Is some file strictly inside directory `d`?  (The observable meaning of
"the `d` subdirectory is non-empty".) -/
def FS.subdirPopulated (fs : FS) (d : FilePath') : Bool :=
  fs.files.any (fun f => d.isPrefixOf f && f != d)

/-- Rust `Path::file_stem` for a plain file name such as
`onnxruntime-linux-x64-1.11.1.tgz`: the name with everything from the final
`.` stripped (the name is unchanged when it has no `.`). -/
def file_stem (s : String) : String :=
  let rev := s.data.reverse
  if rev.contains '.' then
    String.mk (((rev.dropWhile (fun c => c ≠ '.')).drop 1).reverse)
  else s

/-- The environment the desktop prebuilt path reads, beyond the target
strings: `ORT_USE_CUDA` (empty when absent), whether the release server is
reachable (`netOk`), and the file tree packed inside the release archive
(paths relative to the extraction directory). -/
structure DesktopEnv where
  ort_use_cuda : String
  netOk : Bool
  archiveContents : List FilePath'

/-- `download(source_url, target_file)`: issues the HTTP request; on
transport failure every error is an `.unwrap()` panic.  On success the
target file is written. -/
def download (env : DesktopEnv) (source_url : String) (target_file : FilePath')
    (fs : FS) : Res Unit :=
  if env.netOk then ⟨[.net source_url], fs.addFile target_file, .ok ()⟩
  else ⟨[.net source_url], fs,
    .error ("ERROR: Failed to download " ++ source_url)⟩

/-- `extract_archive` / `extract_tgz` / `extract_zip` as used by the desktop
path: unpacks the archive contents beneath `output` and creates `output`.
(The per-entry behaviour of `extract_zip` is modelled separately below for
the path-traversal claim.) -/
def extract_archive (env : DesktopEnv) (filename output : FilePath') (fs : FS) :
    Res Unit :=
  ⟨[.extractArchive filename output],
    ⟨fs.files ++ env.archiveContents.map (fun p => output ++ p),
      fs.dirs ++ [output]⟩, .ok ()⟩

/-- `prepare_libort_dir_prebuilt`, over the modelled filesystem.
`out_dir` is the value of `OUT_DIR`. -/
def prepare_libort_dir_prebuilt (target_os target_arch : String)
    (env : DesktopEnv) (out_dir : FilePath') (fs : FS) : Res FilePath' :=
  match prebuilt_archive_url target_os target_arch env.ort_use_cuda with
  | .error e => ⟨[], fs, .error e⟩
  | .ok (prebuilt_archive, prebuilt_url) =>
    let extract_dir := out_dir ++ [ORT_PREBUILT_EXTRACT_DIR]
    let downloaded_file := out_dir ++ [prebuilt_archive]
    let step1 : Res Unit :=
      if fs.hasFile downloaded_file then ⟨[], fs, .ok ()⟩
      else download env prebuilt_url downloaded_file fs
    match step1 with
    | ⟨evs1, fs1, .error e⟩ => ⟨evs1, fs1, .error e⟩
    | ⟨evs1, fs1, .ok ()⟩ =>
      let step2 : Res Unit :=
        if fs1.hasDir extract_dir then ⟨[], fs1, .ok ()⟩
        else extract_archive env downloaded_file extract_dir fs1
      match step2 with
      | ⟨evs2, fs2, .error e⟩ => ⟨evs1 ++ evs2, fs2, .error e⟩
      | ⟨evs2, fs2, .ok ()⟩ =>
        ⟨evs1 ++ evs2, fs2, .ok (extract_dir ++ [file_stem prebuilt_archive])⟩

namespace android

/-- `android::OS` -/
inductive OS
  | Android
deriving DecidableEq

/-- `impl ToString for OS` -/
def OS.to_string : OS → String
  | .Android => "android"

/-- `impl FromStr for OS` -/
def OS.from_str (s : String) : Except String OS :=
  match s with
  | "android" => .ok .Android
  | _ => .error ("unsupported os: " ++ s)

/-- `OS::as_build_name` -/
def OS.as_build_name : OS → String
  | .Android => "Android"

/-- `android::Arch` -/
inductive Arch
  | x86
  | x86_64
  | arm
  | aarch64
deriving DecidableEq

/-- `impl ToString for Arch` -/
def Arch.to_string : Arch → String
  | .x86 => "x86"
  | .x86_64 => "x86_64"
  | .arm => "arm"
  | .aarch64 => "aarch64"

/-- `impl FromStr for Arch` -/
def Arch.from_str (s : String) : Except String Arch :=
  match s with
  | "x86" => .ok .x86
  | "x86_64" => .ok .x86_64
  | "arm" => .ok .arm
  | "aarch64" => .ok .aarch64
  | _ => .error ("unsupported arch: " ++ s)

/-- `Arch::as_android_arch` -/
def Arch.as_android_arch : Arch → String
  | .x86 => "x86"
  | .x86_64 => "x86_64"
  | .arm => "armeabi-v7a"
  | .aarch64 => "arm64-v8a"

/-- `struct Target` -/
structure Target where
  os : OS
  arch : Arch
deriving DecidableEq

/-- The environment the android paths read: SDK/NDK/NNAPI variables and the
outcome of the external interactions.  The remote-prebuilt fetch has two
distinct failure stages mirroring the source: `callOk` is the outcome of
`ureq::get(&url).call()` (whose failure the `?` propagates as a recoverable
`GenericError`), and `readOk` is the outcome of streaming the response body
(`resp.read_to_end(&mut buf)`, whose failure is a fatal `.expect` panic). -/
structure AndroidEnv where
  sdk : Option String
  ndk : Option String
  nnapi : Option String
  callOk : Bool
  readOk : Bool
  gitOk : Bool
  buildOk : Bool

/-- `android::version_name`.  The source always passes the constant
`ANDROID_API_LEVEL`; the level is a parameter here because the source guards
on its value. -/
def version_name (os : OS) (arch : Arch) (api_level : Nat) : String :=
  os.to_string ++ "-" ++ arch.to_string ++ "-lvl-" ++ toString api_level
    ++ "-v" ++ ORT_VERSION

/-- The per-target cache directory of `android::download_prebuilt`:
`OUT_DIR/onnxruntime-download/<version_name>`. -/
def download_workdir (t : Target) (api_level : Nat) (out_dir : FilePath') :
    FilePath' :=
  out_dir ++ [ORT_PREBUILT_EXTRACT_DIR ++ "-download",
    version_name t.os t.arch api_level]

/-- The on-disk location whose existence is the remote-prebuilt cache-hit
signal: `<download_workdir>/lib/libonnxruntime.so`. -/
def prebuilt_lib_file (t : Target) (api_level : Nat) (out_dir : FilePath') :
    FilePath' :=
  (download_workdir t api_level out_dir ++ ["lib"]) ++ ["libonnxruntime.so"]

/-- The URL of the remote Android prebuilt shared object. -/
def remote_url (t : Target) (api_level : Nat) : String :=
  "http://s3-de-central.profitbricks.com/xayn-yellow-bert/onnxruntime/"
    ++ version_name t.os t.arch api_level ++ "/libonnxruntime.so"

/-- `android::download_prebuilt`.  The inner `Except Unit` is the
recoverable `GenericError` of the `?` on `ureq::get(&url).call()` — the only
recoverable failure; the outer `Except String` of `Res` is reserved for
panics,  in particular the `.expect("Failed to read the content of the
request")` that aborts on a transport failure while streaming the body. -/
def download_prebuilt (t : Target) (env : AndroidEnv) (api_level : Nat)
    (out_dir : FilePath') (fs : FS) : Res (Except Unit FilePath') :=
  let workdir := download_workdir t api_level out_dir
  let lib_dir := workdir ++ ["lib"]
  let lib := lib_dir ++ ["libonnxruntime.so"]
  if fs.hasFile lib then ⟨[], fs, .ok (.ok workdir)⟩
  else
    let url := remote_url t api_level
    if env.callOk then
      if env.readOk then
        ⟨[.net url], (fs.addDir lib_dir).addFile lib, .ok (.ok workdir)⟩
      else
        ⟨[.net url], fs, .error "Failed to read the content of the request"⟩
    else
      ⟨[.net url], fs, .ok (.error ())⟩

/-- `android::prepare_git_repository`: clone-or-open of the upstream
repository plus checkout of the pinned tag, collapsed into one `git` event;
any git failure is a panic. -/
def prepare_git_repository (env : AndroidEnv) (out_dir : FilePath') (fs : FS) :
    Res FilePath' :=
  let workdir := out_dir ++ [ORT_PREBUILT_EXTRACT_DIR ++ "-git"]
  if env.gitOk then ⟨[.git], fs.addDir workdir, .ok workdir⟩
  else ⟨[.git], fs, .error "Failed to clone repository"⟩

/-- `android::mimic_release_package`: reshapes the build output into the
canonical release layout.  Returns the resulting filesystem, or a panic if a
source file is missing or a target directory already exists. -/
def mimic_release_package (workdir version_dir : FilePath') (os : OS)
    (with_extra_provider : Bool) (fs : FS) : Except String FS := do
  let fs := fs.addDir version_dir
  let build_dir := workdir ++ ["build", os.as_build_name, "Release"]
  let lib_target_dir := version_dir ++ ["lib"]
  let fs ← fs.create_dir lib_target_dir
  let fs ← fs.copy (build_dir ++ ["libonnxruntime.so"])
    (lib_target_dir ++ ["libonnxruntime.so"])
  let include_target_dir := version_dir ++ ["include"]
  let fs ← fs.create_dir include_target_dir
  let include_source_base := workdir ++ ["include", "onnxruntime", "core"]
  let fs ← fs.copy (include_source_base ++ ["session", "onnxruntime_c_api.h"])
    (include_target_dir ++ ["onnxruntime_c_api.h"])
  let fs ← fs.copy (include_source_base ++ ["session", "onnxruntime_cxx_api.h"])
    (include_target_dir ++ ["onnxruntime_cxx_api.h"])
  let fs ← fs.copy
    (include_source_base ++ ["session", "onnxruntime_cxx_inline.h"])
    (include_target_dir ++ ["onnxruntime_cxx_inline.h"])
  let fs ← fs.copy
    (include_source_base ++ ["providers", "cpu", "cpu_provider_factory.h"])
    (include_target_dir ++ ["cpu_provider_factory.h"])
  let fs ← fs.copy
    (include_source_base
      ++ ["session", "onnxruntime_session_options_config_keys.h"])
    (include_target_dir ++ ["onnxruntime_session_options_config_keys.h"])
  let fs ← fs.copy
    (include_source_base
      ++ ["session", "onnxruntime_run_options_config_keys.h"])
    (include_target_dir ++ ["onnxruntime_run_options_config_keys.h"])
  let fs ← fs.copy
    (include_source_base ++ ["framework", "provider_options.h"])
    (include_target_dir ++ ["provider_options.h"])
  if with_extra_provider then
    fs.copy
      (include_source_base
        ++ ["providers", "nnapi", "nnapi_provider_factory.h"])
      (include_target_dir ++ ["nnapi_provider_factory.h"])
  else
    pure fs

/-- `android::build_android`.  The source reads `ANDROID_SDK_HOME` and
`ANDROID_NDK_HOME` first (`.expect` panics), then checks the NNAPI/API-level
guard, then — only when the version directory is absent — spawns the
cross-build subprocess and reshapes its output. -/
def build_android (env : AndroidEnv) (api_level : Nat)
    (workdir version_dir : FilePath') (arch : Arch) (fs : FS) : Res Unit :=
  match env.sdk with
  | none => ⟨[], fs, .error "Failed to get ANDROID_SDK_HOME"⟩
  | some _ =>
  match env.ndk with
  | none => ⟨[], fs, .error "Failed to get ANDROID_NDK_HOME"⟩
  | some _ =>
  if env.nnapi.isSome ∧ api_level < 27 then
    ⟨[], fs, .error "nnapi requires no less than api level 27"⟩
  else if fs.hasDir version_dir then
    ⟨[], fs, .ok ()⟩
  else if env.buildOk then
    match mimic_release_package workdir version_dir OS.Android
        env.nnapi.isSome fs with
    | .ok fs' => ⟨[.spawn], fs', .ok ()⟩
    | .error e => ⟨[.spawn], fs, .error e⟩
  else
    ⟨[.spawn], fs,
      .error ("Failed to build android library for target " ++ arch.to_string)⟩

/-- The per-target compile cache directory of `android::build_target`:
`OUT_DIR/onnxruntime-release/<version_name>`. -/
def release_version_dir (t : Target) (api_level : Nat) (out_dir : FilePath') :
    FilePath' :=
  out_dir ++ [ORT_PREBUILT_EXTRACT_DIR ++ "-release",
    version_name t.os t.arch api_level]

/-- `android::build_target` -/
def build_target (env : AndroidEnv) (api_level : Nat) (workdir : FilePath')
    (t : Target) (out_dir : FilePath') (fs : FS) : Res FilePath' :=
  let version_dir := release_version_dir t api_level out_dir
  match build_android env api_level workdir version_dir t.arch fs with
  | ⟨evs, fs', .ok ()⟩ => ⟨evs, fs', .ok version_dir⟩
  | ⟨evs, fs', .error e⟩ => ⟨evs, fs', .error e⟩

/-- `android::compile` -/
def compile (t : Target) (env : AndroidEnv) (api_level : Nat)
    (out_dir : FilePath') (fs : FS) : Res FilePath' :=
  match prepare_git_repository env out_dir fs with
  | ⟨evs, fs', .error e⟩ => ⟨evs, fs', .error e⟩
  | ⟨evs, fs', .ok workdir⟩ =>
    match build_target env api_level workdir t out_dir fs' with
    | ⟨evs2, fs2, v⟩ => ⟨evs ++ evs2, fs2, v⟩

/-- `android::setup`: parse the target strings, attempt the remote prebuilt,
and on its recoverable failure fall back to compiling from source
(`download_prebuilt(&target).unwrap_or_else(|_| compile(&target))`). -/
def setup (target_os target_arch : String) (env : AndroidEnv)
    (api_level : Nat) (out_dir : FilePath') (fs : FS) : Res FilePath' :=
  match OS.from_str target_os with
  | .error e => ⟨[], fs, .error e⟩
  | .ok os =>
  match Arch.from_str target_arch with
  | .error e => ⟨[], fs, .error e⟩
  | .ok arch =>
  let t : Target := ⟨os, arch⟩
  match download_prebuilt t env api_level out_dir fs with
  | ⟨evs, fs', .error e⟩ => ⟨evs, fs', .error e⟩
  | ⟨evs, fs', .ok (.ok p)⟩ => ⟨evs, fs', .ok p⟩
  | ⟨evs, fs', .ok (.error ())⟩ =>
    match compile t env api_level out_dir fs' with
    | ⟨evs2, fs2, v⟩ => ⟨evs ++ evs2, fs2, v⟩

end android

/-- `prepare_libort_dir`: strategy selection.  `strategy` is the value of
`ORT_STRATEGY` (`Option.none` when the variable is absent),
`ort_lib_location` the value of `ORT_LIB_LOCATION`.  The `system` branch
returns `PathBuf::from` of the raw value, modelled as a single-component
path; `unimplemented!()` and unknown-value branches panic. -/
def prepare_libort_dir (strategy : Option String)
    (target_os target_arch : String) (ort_lib_location : Option String)
    (denv : DesktopEnv) (aenv : android.AndroidEnv) (out_dir : FilePath')
    (fs : FS) : Res FilePath' :=
  match strategy with
  | none =>
    if target_os = "android" then
      android.setup target_os target_arch aenv ANDROID_API_LEVEL out_dir fs
    else
      prepare_libort_dir_prebuilt target_os target_arch denv out_dir fs
  | some s =>
    if s = "download" then
      prepare_libort_dir_prebuilt target_os target_arch denv out_dir fs
    else if s = "system" then
      match ort_lib_location with
      | some p => ⟨[], fs, .ok [p]⟩
      | none =>
        ⟨[], fs, .error ("Could not get value of environment variable "
          ++ ORT_ENV_SYSTEM_LIB_LOCATION)⟩
    else if s = "compile" then
      ⟨[], fs, .error "not implemented"⟩
    else
      ⟨[], fs, .error ("Unknown value for " ++ ORT_ENV_STRATEGY)⟩

/-- Split a character list at every occurrence of `sep` (the semantics of
`str::split` / path-component iteration). -/
def splitOnChar (sep : Char) (cs : List Char) : List (List Char) :=
  cs.foldr
    (fun c acc =>
      if c = sep then [] :: acc
      else
        match acc with
        | g :: gs => (c :: g) :: gs
        | [] => [[c]])
    [[]]

/-- Sanitization the zip library applies to an entry name
(`ZipFile::sanitized_name`): interpret the name as `/`-separated components
and keep only the normal ones, dropping empty, current-directory (`.`) and
parent-directory (`..`) segments.  Modelled from the zip crate the source
calls (the call site is `extract_zip` in `build.rs`). -/
def sanitize_components (name : String) : List String :=
  ((splitOnChar '/' name.data).map String.mk).filter
    (fun c => c != "" && c != "." && c != "..")

/-- `file.name().ends_with('/')`: the check `extract_zip` uses to recognize
directory-only entries. -/
def ends_with_slash (name : String) : Bool :=
  name.data.getLast? == some '/'

/-- The per-entry file writes of `extract_zip`: for every entry whose name
does not end in `/`, a file is written at the destination root joined with
the entry's sanitized relative path; entries ending in `/` are skipped. -/
def extract_zip_writes (outpath : FilePath') (entries : List String) :
    List FilePath' :=
  entries.filterMap (fun name =>
    if ends_with_slash name then none
    else some (outpath ++ sanitize_components name))

/-! ## Helper lemmas about the filesystem model -/

theorem FS.hasFile_eq (fs : FS) (q : FilePath') :
    fs.hasFile q = decide (q ∈ fs.files) := by
  simp [FS.hasFile, List.contains]

theorem FS.hasDir_eq (fs : FS) (q : FilePath') :
    fs.hasDir q = decide (q ∈ fs.dirs) := by
  simp [FS.hasDir, List.contains]

theorem FS.addFile_files (fs : FS) (p : FilePath') :
    (fs.addFile p).files = fs.files ++ [p] := rfl

theorem FS.addFile_dirs (fs : FS) (p : FilePath') :
    (fs.addFile p).dirs = fs.dirs := rfl

theorem FS.addDir_files (fs : FS) (p : FilePath') :
    (fs.addDir p).files = fs.files := rfl

theorem FS.addDir_dirs (fs : FS) (p : FilePath') :
    (fs.addDir p).dirs = fs.dirs ++ [p] := rfl

theorem List.isPrefixOf_append_self (l t : FilePath') :
    l.isPrefixOf (l ++ t) = true := by
  rw [List.isPrefixOf_iff_prefix]
  exact List.prefix_append l t

/-! ## Theorems for the specification claims -/

/-- C2: for every (OS, Architecture, Accelerator) combination in the
enumerated valid table, `Triplet::as_onnx_str` returns exactly the
documented token: `os-arch` for the six non-GPU combinations,
`win-gpu-x64` for Windows+X86_64+Gpu (accelerator before architecture), and
`linux-x64-gpu` for Linux+X86_64+Gpu (accelerator after architecture). -/
theorem triplet_valid_table_tokens :
    Triplet.as_onnx_str ⟨.Windows, .X86, .None⟩ = .ok "win-x86" ∧
    Triplet.as_onnx_str ⟨.Windows, .X86_64, .None⟩ = .ok "win-x64" ∧
    Triplet.as_onnx_str ⟨.Windows, .Arm, .None⟩ = .ok "win-arm" ∧
    Triplet.as_onnx_str ⟨.Windows, .Arm64, .None⟩ = .ok "win-arm64" ∧
    Triplet.as_onnx_str ⟨.Linux, .X86_64, .None⟩ = .ok "linux-x64" ∧
    Triplet.as_onnx_str ⟨.MacOs, .X86_64, .None⟩ = .ok "osx-x64" ∧
    Triplet.as_onnx_str ⟨.Windows, .X86_64, .Gpu⟩ = .ok "win-gpu-x64" ∧
    Triplet.as_onnx_str ⟨.Linux, .X86_64, .Gpu⟩ = .ok "linux-x64-gpu" :=
  ⟨rfl, rfl, rfl, rfl, rfl, rfl, rfl, rfl⟩

/-- C3: every (OS, Architecture, Accelerator) combination outside the
enumerated valid table resolves to the fatal panic whose message names the
unsupported triplet and instructs the caller to use `ORT_STRATEGY=system`
(see `Triplet.unsupported_msg`); no token is ever returned for them. -/
theorem triplet_unsupported_fatal (t : Triplet) (h : t ∉ validTriplets) :
    t.as_onnx_str = .error t.unsupported_msg := by
  rcases t with ⟨o, a, c⟩
  cases o <;> cases a <;> cases c <;>
    first
    | rfl
    | exact absurd (by decide) h

/-- Witness for C3 at the concrete triplet MacOs+Arm64+None (end-to-end
scenario 4 of the spec). -/
theorem triplet_unsupported_fatal_witness :
    (⟨.MacOs, .Arm64, .None⟩ : Triplet) ∉ validTriplets ∧
    Triplet.as_onnx_str ⟨.MacOs, .Arm64, .None⟩ =
      .error (Triplet.unsupported_msg ⟨.MacOs, .Arm64, .None⟩) :=
  ⟨by decide, triplet_unsupported_fatal ⟨.MacOs, .Arm64, .None⟩ (by decide)⟩

/-- C9: for OS=Linux, Arch=X86_64, Accelerator=None and version 1.11.1, the
archive descriptor is `onnxruntime-linux-x64-1.11.1.tgz` with URL equal to
the release base followed by `/v1.11.1/onnxruntime-linux-x64-1.11.1.tgz`,
and the extension rule is zip for Windows, tgz for Linux and macOS. -/
theorem archive_descriptor_linux_x64 :
    prebuilt_archive_url "linux" "x86_64" "" =
      .ok ("onnxruntime-linux-x64-1.11.1.tgz",
        ORT_RELEASE_BASE_URL ++ "/v1.11.1/onnxruntime-linux-x64-1.11.1.tgz") ∧
    Os.archive_extension .Windows = "zip" ∧
    Os.archive_extension .Linux = "tgz" ∧
    Os.archive_extension .MacOs = "tgz" :=
  ⟨rfl, rfl, rfl, rfl⟩

/-- C10: on an Android target, the Android acquisition path is selected only
when `ORT_STRATEGY` is entirely absent; `ORT_STRATEGY=download` routes to
the desktop prebuilt path, which aborts because `android` is rejected by
the desktop `Os` parser (which accepts exactly windows, macos, linux), and
`ORT_STRATEGY=compile` aborts with the not-implemented panic. -/
theorem android_strategy_selection :
    (∀ (target_arch : String) (loc : Option String) (denv : DesktopEnv)
        (aenv : android.AndroidEnv) (out_dir : FilePath') (fs : FS),
      prepare_libort_dir none "android" target_arch loc denv aenv out_dir fs =
        android.setup "android" target_arch aenv ANDROID_API_LEVEL out_dir fs) ∧
    (∀ (target_arch : String) (loc : Option String) (denv : DesktopEnv)
        (aenv : android.AndroidEnv) (out_dir : FilePath') (fs : FS),
      prepare_libort_dir (some "download") "android" target_arch loc denv aenv
          out_dir fs =
        ⟨[], fs, .error "Unsupported os: android"⟩) ∧
    (∀ (target_arch : String) (loc : Option String) (denv : DesktopEnv)
        (aenv : android.AndroidEnv) (out_dir : FilePath') (fs : FS),
      prepare_libort_dir (some "compile") "android" target_arch loc denv aenv
          out_dir fs =
        ⟨[], fs, .error "not implemented"⟩) ∧
    Os.from_str "android" = .error "Unsupported os: android" ∧
    Os.from_str "windows" = .ok .Windows ∧
    Os.from_str "macos" = .ok .MacOs ∧
    Os.from_str "linux" = .ok .Linux := by
  refine ⟨fun _ _ _ _ _ _ => rfl, fun _ _ _ _ _ _ => rfl,
    fun _ _ _ _ _ _ => rfl, rfl, rfl, rfl, rfl⟩

/-- C8: every file write of `extract_zip` lands at a path that has the
destination root as a prefix and whose remaining components contain no
parent-directory (or empty or current-directory) segment — in particular
entries naming `../` cannot escape the root — and a directory-only entry
(name ending in `/`) produces no file write at all. -/
theorem extract_zip_traversal_containment :
    (∀ (outpath : FilePath') (entries : List String) (p : FilePath'),
      p ∈ extract_zip_writes outpath entries →
      outpath.isPrefixOf p = true ∧
        (p.drop outpath.length).all
          (fun c => c != "" && c != "." && c != "..") = true) ∧
    (∀ (outpath : FilePath') (name : String) (rest : List String),
      ends_with_slash name = true →
      extract_zip_writes outpath (name :: rest) =
        extract_zip_writes outpath rest) := by
  constructor
  · intro outpath entries p hp
    rw [extract_zip_writes, List.mem_filterMap] at hp
    obtain ⟨name, -, heq⟩ := hp
    split at heq
    · exact absurd heq (by simp)
    · obtain rfl : outpath ++ sanitize_components name = p :=
        Option.some_injective _ heq
      refine ⟨List.isPrefixOf_append_self _ _, ?_⟩
      rw [List.drop_left, List.all_eq_true]
      intro c hc
      exact (List.mem_filter.mp hc).2
  · intro outpath name rest h
    simp [extract_zip_writes, h]

/-- Witness for C8: a concrete archive with a traversal entry
`../../etc/passwd` (written inside the root at `dest/etc/passwd`) and a
concrete directory-only entry `sub/` (skipped). -/
theorem extract_zip_traversal_containment_witness :
    ((["dest"] : FilePath').isPrefixOf ["dest", "etc", "passwd"] = true ∧
      ((["dest", "etc", "passwd"] : FilePath').drop
          (["dest"] : FilePath').length).all
        (fun c => c != "" && c != "." && c != "..") = true) ∧
    extract_zip_writes ["dest"] ["sub/", "../../etc/passwd"] =
      extract_zip_writes ["dest"] ["../../etc/passwd"] :=
  ⟨extract_zip_traversal_containment.1 ["dest"] ["../../etc/passwd", "sub/"]
      ["dest", "etc", "passwd"] (by decide),
    extract_zip_traversal_containment.2 ["dest"] "sub/" ["../../etc/passwd"]
      (by decide)⟩

/-- C5: in `android::build_android`, if the NNAPI flag is requested while
the API level is below 27, the build aborts with the guard's panic message
and the event trace is empty — in particular the cross-build subprocess is
never spawned.  (In the shipped source the level is the constant
`ANDROID_API_LEVEL = 27`, so the guard is expressed over the level
parameter the constant instantiates.) -/
theorem nnapi_guard_precedes_subprocess (env : android.AndroidEnv)
    (api_level : Nat) (workdir version_dir : FilePath') (arch : android.Arch)
    (fs : FS) (hsdk : env.sdk.isSome = true) (hndk : env.ndk.isSome = true)
    (hnn : env.nnapi.isSome = true) (hlt : api_level < 27) :
    android.build_android env api_level workdir version_dir arch fs =
      ⟨[], fs, .error "nnapi requires no less than api level 27"⟩ ∧
    Event.spawn ∉
      (android.build_android env api_level workdir version_dir arch fs).evs := by
  obtain ⟨s, hs⟩ := Option.isSome_iff_exists.mp hsdk
  obtain ⟨n, hn⟩ := Option.isSome_iff_exists.mp hndk
  have h1 : android.build_android env api_level workdir version_dir arch fs =
      ⟨[], fs, .error "nnapi requires no less than api level 27"⟩ := by
    unfold android.build_android
    rw [hs, hn]
    simp [hnn, hlt]
  exact ⟨h1, by rw [h1]; simp⟩

/-- Witness for C5 at API level 26 with NNAPI requested. -/
theorem nnapi_guard_precedes_subprocess_witness :
    (some "1" : Option String).isSome = true ∧ 26 < 27 ∧
    android.build_android ⟨some "sdk", some "ndk", some "1", true, true, true, true⟩
        26 ["w"] ["v"] .aarch64 ⟨[], []⟩ =
      ⟨[], ⟨[], []⟩, .error "nnapi requires no less than api level 27"⟩ ∧
    Event.spawn ∉
      (android.build_android ⟨some "sdk", some "ndk", some "1", true, true, true, true⟩
        26 ["w"] ["v"] .aarch64 ⟨[], []⟩).evs :=
  ⟨rfl, by decide,
    (nnapi_guard_precedes_subprocess
      ⟨some "sdk", some "ndk", some "1", true, true, true, true⟩ 26 ["w"] ["v"]
      .aarch64 ⟨[], []⟩ rfl rfl rfl (by decide)).1,
    (nnapi_guard_precedes_subprocess
      ⟨some "sdk", some "ndk", some "1", true, true, true, true⟩ 26 ["w"] ["v"]
      .aarch64 ⟨[], []⟩ rfl rfl rfl (by decide)).2⟩

theorem android.OS_from_str_roundtrip (os : android.OS) :
    android.OS.from_str os.to_string = .ok os := by
  cases os
  rfl

theorem android.Arch_from_str_roundtrip (a : android.Arch) :
    android.Arch.from_str a.to_string = .ok a := by
  cases a <;> rfl

/-- Counterexample to C6: not every transport failure during the
remote-prebuilt attempt is non-fatal.  When the HTTP request itself
succeeds but the transport fails while the response body is being read,
`resp.read_to_end(&mut buf).expect(...)` panics: `android::setup` aborts
with that panic message and the source-compile fallback is never invoked
(no git work appears in the trace). -/
theorem midstream_transport_failure_fatal :
    android.setup "android" "aarch64"
        ⟨some "s", some "n", none, true, false, true, true⟩ ANDROID_API_LEVEL
        ["o"] ⟨[], []⟩ =
      ⟨[Event.net (android.remote_url ⟨.Android, .aarch64⟩
          ANDROID_API_LEVEL)], ⟨[], []⟩,
        .error "Failed to read the content of the request"⟩ ∧
    Event.git ∉
      (android.setup "android" "aarch64"
        ⟨some "s", some "n", none, true, false, true, true⟩ ANDROID_API_LEVEL
        ["o"] ⟨[], []⟩).evs :=
  ⟨rfl, by decide⟩

/-- C6 (amended): transport failures of the remote-prebuilt attempt split
by stage.  A failure of the request itself (`ureq::get(&url).call()`, the
one error the `?` propagates) is not fatal: `android::setup` proceeds to
the source-compile fallback, its outcome being exactly the outcome of
`android::compile` on the unchanged filesystem with the failed fetch
attempt prepended to the trace.  A transport failure while reading the
response body, after a successful request, is fatal: the build aborts with
the body-read panic and the fallback is not invoked. -/
theorem transport_failure_stage_dichotomy :
    (∀ (t : android.Target) (env : android.AndroidEnv) (api_level : Nat)
        (out_dir : FilePath') (fs : FS),
      env.callOk = false →
      fs.hasFile (android.prebuilt_lib_file t api_level out_dir) = false →
      android.setup t.os.to_string t.arch.to_string env api_level out_dir fs
        = ⟨Event.net (android.remote_url t api_level) ::
            (android.compile t env api_level out_dir fs).evs,
          (android.compile t env api_level out_dir fs).fs,
          (android.compile t env api_level out_dir fs).val⟩) ∧
    (∀ (t : android.Target) (env : android.AndroidEnv) (api_level : Nat)
        (out_dir : FilePath') (fs : FS),
      env.callOk = true →
      env.readOk = false →
      fs.hasFile (android.prebuilt_lib_file t api_level out_dir) = false →
      android.setup t.os.to_string t.arch.to_string env api_level out_dir fs
        = ⟨[Event.net (android.remote_url t api_level)], fs,
          .error "Failed to read the content of the request"⟩) := by
  constructor
  · intro t env api_level out_dir fs hcall hmiss
    obtain ⟨os, arch⟩ := t
    simp only [android.prebuilt_lib_file] at hmiss
    simp only [List.append_assoc, List.singleton_append] at hmiss
    simp [android.setup, android.download_prebuilt,
      android.OS_from_str_roundtrip, android.Arch_from_str_roundtrip,
      hcall, hmiss]
  · intro t env api_level out_dir fs hcall hread hmiss
    obtain ⟨os, arch⟩ := t
    simp only [android.prebuilt_lib_file] at hmiss
    simp only [List.append_assoc, List.singleton_append] at hmiss
    simp [android.setup, android.download_prebuilt,
      android.OS_from_str_roundtrip, android.Arch_from_str_roundtrip,
      hcall, hread, hmiss]

/-- Witness for the amended C6: a concrete request-stage failure (which
falls back to compiling) and a concrete body-read failure (which aborts). -/
theorem transport_failure_stage_dichotomy_witness :
    (FS.hasFile ⟨[], []⟩
      (android.prebuilt_lib_file ⟨.Android, .aarch64⟩ ANDROID_API_LEVEL ["o"])
      = false ∧
    android.setup "android" "aarch64"
        ⟨some "s", some "n", none, false, true, true, true⟩ ANDROID_API_LEVEL
        ["o"] ⟨[], []⟩ =
      ⟨Event.net (android.remote_url ⟨.Android, .aarch64⟩ ANDROID_API_LEVEL) ::
          (android.compile ⟨.Android, .aarch64⟩
            ⟨some "s", some "n", none, false, true, true, true⟩
            ANDROID_API_LEVEL ["o"] ⟨[], []⟩).evs,
        (android.compile ⟨.Android, .aarch64⟩
          ⟨some "s", some "n", none, false, true, true, true⟩
          ANDROID_API_LEVEL ["o"] ⟨[], []⟩).fs,
        (android.compile ⟨.Android, .aarch64⟩
          ⟨some "s", some "n", none, false, true, true, true⟩
          ANDROID_API_LEVEL ["o"] ⟨[], []⟩).val⟩) ∧
    android.setup "android" "x86_64"
        ⟨some "s", some "n", none, true, false, true, true⟩ ANDROID_API_LEVEL
        ["o"] ⟨[], []⟩ =
      ⟨[Event.net (android.remote_url ⟨.Android, .x86_64⟩
          ANDROID_API_LEVEL)], ⟨[], []⟩,
        .error "Failed to read the content of the request"⟩ :=
  ⟨⟨by decide,
    transport_failure_stage_dichotomy.1 ⟨.Android, .aarch64⟩
      ⟨some "s", some "n", none, false, true, true, true⟩ ANDROID_API_LEVEL
      ["o"] ⟨[], []⟩ rfl (by decide)⟩,
    transport_failure_stage_dichotomy.2 ⟨.Android, .x86_64⟩
      ⟨some "s", some "n", none, true, false, true, true⟩ ANDROID_API_LEVEL
      ["o"] ⟨[], []⟩ rfl rfl (by decide)⟩

/-- Counterexample to C7: a filesystem in which both version-name-keyed
cache subdirectories (`onnxruntime-download/android-aarch64-lvl-27-v1.11.1`
and `onnxruntime-release/android-aarch64-lvl-27-v1.11.1`) exist, yet a
subsequent `android::setup` invocation still issues the remote-prebuilt
network request and still performs git work: the fetch is keyed on the
`lib/libonnxruntime.so` file, not the subdirectory, and the compile cache
is only consulted after the repository has been prepared. -/
theorem version_cache_subdir_fetch_counterexample :
    FS.hasDir
        ⟨[], [["o", "onnxruntime-download", "android-aarch64-lvl-27-v1.11.1"],
          ["o", "onnxruntime-release", "android-aarch64-lvl-27-v1.11.1"]]⟩
        (android.download_workdir ⟨.Android, .aarch64⟩ ANDROID_API_LEVEL ["o"])
      = true ∧
    FS.hasDir
        ⟨[], [["o", "onnxruntime-download", "android-aarch64-lvl-27-v1.11.1"],
          ["o", "onnxruntime-release", "android-aarch64-lvl-27-v1.11.1"]]⟩
        (android.release_version_dir ⟨.Android, .aarch64⟩ ANDROID_API_LEVEL
          ["o"])
      = true ∧
    Event.net (android.remote_url ⟨.Android, .aarch64⟩ ANDROID_API_LEVEL) ∈
      (android.setup "android" "aarch64"
        ⟨some "s", some "n", none, false, true, true, true⟩ ANDROID_API_LEVEL ["o"]
        ⟨[], [["o", "onnxruntime-download", "android-aarch64-lvl-27-v1.11.1"],
          ["o", "onnxruntime-release", "android-aarch64-lvl-27-v1.11.1"]]⟩).evs ∧
    Event.git ∈
      (android.setup "android" "aarch64"
        ⟨some "s", some "n", none, false, true, true, true⟩ ANDROID_API_LEVEL ["o"]
        ⟨[], [["o", "onnxruntime-download", "android-aarch64-lvl-27-v1.11.1"],
          ["o", "onnxruntime-release", "android-aarch64-lvl-27-v1.11.1"]]⟩).evs := by
  decide

/-- C7 (amended): the Android remote-prebuilt cache hit is keyed on the
existence of the `lib/libonnxruntime.so` file inside the version-name-keyed
download subdirectory, not on the subdirectory itself.  When that file
exists, a subsequent invocation skips everything: no network call, no git
work, no subprocess, and the cached directory is returned unchanged. -/
theorem android_lib_cache_hit_skips_everything (t : android.Target)
    (env : android.AndroidEnv) (api_level : Nat) (out_dir : FilePath')
    (fs : FS)
    (hhit : fs.hasFile (android.prebuilt_lib_file t api_level out_dir)
      = true) :
    android.setup t.os.to_string t.arch.to_string env api_level out_dir fs =
      ⟨[], fs, .ok (android.download_workdir t api_level out_dir)⟩ := by
  obtain ⟨os, arch⟩ := t
  simp only [android.prebuilt_lib_file] at hhit
  simp only [List.append_assoc, List.singleton_append] at hhit
  simp [android.setup, android.download_prebuilt,
    android.OS_from_str_roundtrip, android.Arch_from_str_roundtrip, hhit]

/-- Witness for the amended C7: with the shared object cached on disk, the
invocation emits no events and returns the cache directory. -/
theorem android_lib_cache_hit_skips_everything_witness :
    FS.hasFile
        ⟨[["o", "onnxruntime-download", "android-aarch64-lvl-27-v1.11.1",
          "lib", "libonnxruntime.so"]], []⟩
        (android.prebuilt_lib_file ⟨.Android, .aarch64⟩ ANDROID_API_LEVEL
          ["o"])
      = true ∧
    android.setup "android" "aarch64"
        ⟨some "s", some "n", none, true, true, true, true⟩ ANDROID_API_LEVEL ["o"]
        ⟨[["o", "onnxruntime-download", "android-aarch64-lvl-27-v1.11.1",
          "lib", "libonnxruntime.so"]], []⟩ =
      ⟨[], ⟨[["o", "onnxruntime-download", "android-aarch64-lvl-27-v1.11.1",
          "lib", "libonnxruntime.so"]], []⟩,
        .ok (android.download_workdir ⟨.Android, .aarch64⟩ ANDROID_API_LEVEL
          ["o"])⟩ :=
  ⟨by decide,
    android_lib_cache_hit_skips_everything ⟨.Android, .aarch64⟩
      ⟨some "s", some "n", none, true, true, true, true⟩ ANDROID_API_LEVEL ["o"]
      ⟨[["o", "onnxruntime-download", "android-aarch64-lvl-27-v1.11.1",
        "lib", "libonnxruntime.so"]], []⟩ (by decide)⟩

/-- Counterexample to C1: the Android remote-prebuilt path
(`android::download_prebuilt`), run to success from an empty filesystem,
returns its cache directory after creating only `lib/libonnxruntime.so`
inside it — no `include/` subdirectory exists and no file lies under
`include/`, so the returned layout does not contain a non-empty `include/`
subtree. -/
theorem android_prebuilt_layout_missing_include :
    (android.download_prebuilt ⟨.Android, .aarch64⟩
        ⟨some "s", some "n", none, true, true, true, true⟩ ANDROID_API_LEVEL ["o"]
        ⟨[], []⟩).val =
      .ok (.ok (android.download_workdir ⟨.Android, .aarch64⟩
        ANDROID_API_LEVEL ["o"])) ∧
    FS.hasDir
        (android.download_prebuilt ⟨.Android, .aarch64⟩
          ⟨some "s", some "n", none, true, true, true, true⟩ ANDROID_API_LEVEL ["o"]
          ⟨[], []⟩).fs
        (android.download_workdir ⟨.Android, .aarch64⟩ ANDROID_API_LEVEL ["o"]
          ++ ["include"])
      = false ∧
    FS.subdirPopulated
        (android.download_prebuilt ⟨.Android, .aarch64⟩
          ⟨some "s", some "n", none, true, true, true, true⟩ ANDROID_API_LEVEL ["o"]
          ⟨[], []⟩).fs
        (android.download_workdir ⟨.Android, .aarch64⟩ ANDROID_API_LEVEL ["o"]
          ++ ["include"])
      = false ∧
    FS.subdirPopulated
        (android.download_prebuilt ⟨.Android, .aarch64⟩
          ⟨some "s", some "n", none, true, true, true, true⟩ ANDROID_API_LEVEL ["o"]
          ⟨[], []⟩).fs
        (android.download_workdir ⟨.Android, .aarch64⟩ ANDROID_API_LEVEL ["o"]
          ++ ["lib"])
      = true :=
  ⟨rfl, by decide, by decide, by decide⟩

/-- C1 (amended): only the Android source-compile path establishes the full
layout contract: `mimic_release_package` (given the build outputs and
headers it copies from) produces a filesystem in which the returned
directory contains existing, non-empty `lib/` and `include/`
subdirectories.  The Android remote-prebuilt path guarantees only a
non-empty `lib/` subdirectory (it never creates `include/`), and the
desktop prebuilt path performs no check of either subdirectory (its layout
comes solely from the archive contents). -/
theorem release_layout_guarantees :
    (∀ (workdir version_dir : FilePath') (extra : Bool) (fs : FS),
      fs.hasDir (version_dir ++ ["lib"]) = false →
      fs.hasDir (version_dir ++ ["include"]) = false →
      fs.hasFile (workdir ++ ["build", "Android", "Release",
        "libonnxruntime.so"]) = true →
      fs.hasFile (workdir ++ ["include", "onnxruntime", "core", "session",
        "onnxruntime_c_api.h"]) = true →
      fs.hasFile (workdir ++ ["include", "onnxruntime", "core", "session",
        "onnxruntime_cxx_api.h"]) = true →
      fs.hasFile (workdir ++ ["include", "onnxruntime", "core", "session",
        "onnxruntime_cxx_inline.h"]) = true →
      fs.hasFile (workdir ++ ["include", "onnxruntime", "core", "providers",
        "cpu", "cpu_provider_factory.h"]) = true →
      fs.hasFile (workdir ++ ["include", "onnxruntime", "core", "session",
        "onnxruntime_session_options_config_keys.h"]) = true →
      fs.hasFile (workdir ++ ["include", "onnxruntime", "core", "session",
        "onnxruntime_run_options_config_keys.h"]) = true →
      fs.hasFile (workdir ++ ["include", "onnxruntime", "core", "framework",
        "provider_options.h"]) = true →
      fs.hasFile (workdir ++ ["include", "onnxruntime", "core", "providers",
        "nnapi", "nnapi_provider_factory.h"]) = true →
      ∃ fs',
        android.mimic_release_package workdir version_dir .Android extra fs
          = .ok fs' ∧
        fs'.hasDir (version_dir ++ ["lib"]) = true ∧
        fs'.hasDir (version_dir ++ ["include"]) = true ∧
        fs'.subdirPopulated (version_dir ++ ["lib"]) = true ∧
        fs'.subdirPopulated (version_dir ++ ["include"]) = true) ∧
    (∀ (t : android.Target) (env : android.AndroidEnv) (api_level : Nat)
        (out_dir : FilePath') (fs : FS),
      env.callOk = true →
      env.readOk = true →
      fs.hasFile (android.prebuilt_lib_file t api_level out_dir) = false →
      ∃ fs',
        android.download_prebuilt t env api_level out_dir fs =
          ⟨[.net (android.remote_url t api_level)], fs',
            .ok (.ok (android.download_workdir t api_level out_dir))⟩ ∧
        fs'.hasDir (android.download_workdir t api_level out_dir ++ ["lib"])
          = true ∧
        fs'.subdirPopulated
          (android.download_workdir t api_level out_dir ++ ["lib"]) = true) := by
  constructor
  · intro workdir version_dir extra fs hdl hdi hso hh1 hh2 hh3 hh4 hh5 hh6
      hh7 hh8
    simp only [FS.hasDir_eq, FS.hasFile_eq, decide_eq_true_eq,
      decide_eq_false_iff_not] at hdl hdi hso hh1 hh2 hh3 hh4 hh5 hh6 hh7 hh8
    cases extra
    all_goals
      simp [android.mimic_release_package, FS.copy, FS.create_dir, Bind.bind,
        Except.bind, pure, Except.pure, FS.hasDir_eq, FS.hasFile_eq,
        FS.addFile, FS.addDir, FS.subdirPopulated,
        android.OS.as_build_name, hdl, hdi, hso, hh1, hh2, hh3, hh4, hh5,
        hh6, hh7, hh8, List.isPrefixOf_append_self]
    all_goals
      refine ⟨⟨(version_dir ++ ["lib"]) ++ ["libonnxruntime.so"], by simp,
          List.prefix_append _ _, by simp⟩,
        ⟨(version_dir ++ ["include"]) ++ ["onnxruntime_c_api.h"], by simp,
          List.prefix_append _ _, by simp⟩⟩
  · intro t env api_level out_dir fs hcall hread hmiss
    simp only [android.prebuilt_lib_file] at hmiss
    simp only [List.append_assoc, List.singleton_append] at hmiss
    refine ⟨(fs.addDir (android.download_workdir t api_level out_dir
        ++ ["lib"])).addFile
      ((android.download_workdir t api_level out_dir ++ ["lib"])
        ++ ["libonnxruntime.so"]), ?_, ?_, ?_⟩
    · simp [android.download_prebuilt, hmiss, hcall, hread]
    · simp [FS.hasDir_eq, FS.addFile, FS.addDir]
    · simp [FS.subdirPopulated, FS.addFile, FS.addDir,
        List.isPrefixOf_append_self]

/-- Witness for the amended C1: a concrete compile-output tree reshaped by
`mimic_release_package` (with the NNAPI provider requested), and a concrete
successful remote-prebuilt fetch. -/
theorem release_layout_guarantees_witness :
    (∃ fs',
      android.mimic_release_package ["w"] ["v"] .Android true
          ⟨[["w", "build", "Android", "Release", "libonnxruntime.so"],
            ["w", "include", "onnxruntime", "core", "session",
              "onnxruntime_c_api.h"],
            ["w", "include", "onnxruntime", "core", "session",
              "onnxruntime_cxx_api.h"],
            ["w", "include", "onnxruntime", "core", "session",
              "onnxruntime_cxx_inline.h"],
            ["w", "include", "onnxruntime", "core", "providers", "cpu",
              "cpu_provider_factory.h"],
            ["w", "include", "onnxruntime", "core", "session",
              "onnxruntime_session_options_config_keys.h"],
            ["w", "include", "onnxruntime", "core", "session",
              "onnxruntime_run_options_config_keys.h"],
            ["w", "include", "onnxruntime", "core", "framework",
              "provider_options.h"],
            ["w", "include", "onnxruntime", "core", "providers", "nnapi",
              "nnapi_provider_factory.h"]], []⟩
        = .ok fs' ∧
      fs'.hasDir (["v"] ++ ["lib"]) = true ∧
      fs'.hasDir (["v"] ++ ["include"]) = true ∧
      fs'.subdirPopulated (["v"] ++ ["lib"]) = true ∧
      fs'.subdirPopulated (["v"] ++ ["include"]) = true) ∧
    (∃ fs',
      android.download_prebuilt ⟨.Android, .aarch64⟩
          ⟨some "s", some "n", none, true, true, true, true⟩ ANDROID_API_LEVEL
          ["o"] ⟨[], []⟩ =
        ⟨[.net (android.remote_url ⟨.Android, .aarch64⟩ ANDROID_API_LEVEL)],
          fs',
          .ok (.ok (android.download_workdir ⟨.Android, .aarch64⟩
            ANDROID_API_LEVEL ["o"]))⟩ ∧
      fs'.hasDir (android.download_workdir ⟨.Android, .aarch64⟩
        ANDROID_API_LEVEL ["o"] ++ ["lib"]) = true ∧
      fs'.subdirPopulated (android.download_workdir ⟨.Android, .aarch64⟩
        ANDROID_API_LEVEL ["o"] ++ ["lib"]) = true) :=
  ⟨release_layout_guarantees.1 ["w"] ["v"] true
      ⟨[["w", "build", "Android", "Release", "libonnxruntime.so"],
        ["w", "include", "onnxruntime", "core", "session",
          "onnxruntime_c_api.h"],
        ["w", "include", "onnxruntime", "core", "session",
          "onnxruntime_cxx_api.h"],
        ["w", "include", "onnxruntime", "core", "session",
          "onnxruntime_cxx_inline.h"],
        ["w", "include", "onnxruntime", "core", "providers", "cpu",
          "cpu_provider_factory.h"],
        ["w", "include", "onnxruntime", "core", "session",
          "onnxruntime_session_options_config_keys.h"],
        ["w", "include", "onnxruntime", "core", "session",
          "onnxruntime_run_options_config_keys.h"],
        ["w", "include", "onnxruntime", "core", "framework",
          "provider_options.h"],
        ["w", "include", "onnxruntime", "core", "providers", "nnapi",
          "nnapi_provider_factory.h"]], []⟩
      (by decide) (by decide) (by decide) (by decide) (by decide) (by decide)
      (by decide) (by decide) (by decide) (by decide) (by decide),
    release_layout_guarantees.2 ⟨.Android, .aarch64⟩
      ⟨some "s", some "n", none, true, true, true, true⟩ ANDROID_API_LEVEL ["o"]
      ⟨[], []⟩ rfl rfl (by decide)⟩

/-- C4: invoking the prebuilt acquisition a second time after a successful
first invocation (whose resulting filesystem contains both the downloaded
archive file and the extraction directory) performs zero network calls and
zero extraction work — the second event trace is empty — leaves the
filesystem untouched, and returns the same layout path as the first
invocation. -/
theorem prebuilt_acquisition_idempotent (target_os target_arch : String)
    (env : DesktopEnv) (out_dir : FilePath') (fs : FS) (evs : List Event)
    (fs1 : FS) (p : FilePath')
    (h : prepare_libort_dir_prebuilt target_os target_arch env out_dir fs =
      ⟨evs, fs1, .ok p⟩) :
    prepare_libort_dir_prebuilt target_os target_arch env out_dir fs1 =
      ⟨[], fs1, .ok p⟩ := by
  unfold prepare_libort_dir_prebuilt at h ⊢
  cases hpa : prebuilt_archive_url target_os target_arch env.ort_use_cuda with
  | error e =>
    rw [hpa] at h
    simp at h
  | ok pr =>
    obtain ⟨archive, url⟩ := pr
    rw [hpa] at h
    by_cases hf : (out_dir ++ [archive]) ∈ fs.files
    · by_cases hd : (out_dir ++ [ORT_PREBUILT_EXTRACT_DIR]) ∈ fs.dirs
      · simp [FS.hasFile_eq, FS.hasDir_eq, hf, hd] at h
        obtain ⟨he, hfs, hp⟩ := h
        subst hfs
        simp [FS.hasFile_eq, FS.hasDir_eq, hf, hd, hp]
      · simp [FS.hasFile_eq, FS.hasDir_eq, hf, hd, extract_archive] at h
        obtain ⟨he, hfs, hp⟩ := h
        subst hfs
        simp [FS.hasFile_eq, FS.hasDir_eq, hf, hd, hp]
    · by_cases hnet : env.netOk = true
      · simp [FS.hasFile_eq, FS.hasDir_eq, hf, hnet, download,
          extract_archive, FS.addFile, FS.addDir] at h
        by_cases hd : (out_dir ++ [ORT_PREBUILT_EXTRACT_DIR]) ∈ fs.dirs
        · simp [hd] at h
          obtain ⟨he, hfs, hp⟩ := h
          subst hfs
          simp [FS.hasFile_eq, FS.hasDir_eq, hd, hp]
        · simp [hd] at h
          obtain ⟨he, hfs, hp⟩ := h
          subst hfs
          simp [FS.hasFile_eq, FS.hasDir_eq, hp]
      · simp [FS.hasFile_eq, FS.hasDir_eq, hf, hnet, download] at h

/-- Witness for C4: a concrete cold-cache first invocation (download and
extraction both performed) followed by the second invocation on the
populated cache, which emits no events and returns the same path. -/
theorem prebuilt_acquisition_idempotent_witness :
    prepare_libort_dir_prebuilt "linux" "x86_64"
        ⟨"", true, [["onnxruntime-linux-x64-1.11.1", "lib",
          "libonnxruntime.so"]]⟩ ["o"] ⟨[], []⟩ =
      ⟨[.net (ORT_RELEASE_BASE_URL
          ++ "/v1.11.1/onnxruntime-linux-x64-1.11.1.tgz"),
        .extractArchive ["o", "onnxruntime-linux-x64-1.11.1.tgz"]
          ["o", "onnxruntime"]],
       ⟨[["o", "onnxruntime-linux-x64-1.11.1.tgz"],
         ["o", "onnxruntime", "onnxruntime-linux-x64-1.11.1", "lib",
           "libonnxruntime.so"]],
        [["o", "onnxruntime"]]⟩,
       .ok ["o", "onnxruntime", "onnxruntime-linux-x64-1.11.1"]⟩ ∧
    prepare_libort_dir_prebuilt "linux" "x86_64"
        ⟨"", true, [["onnxruntime-linux-x64-1.11.1", "lib",
          "libonnxruntime.so"]]⟩ ["o"]
        ⟨[["o", "onnxruntime-linux-x64-1.11.1.tgz"],
          ["o", "onnxruntime", "onnxruntime-linux-x64-1.11.1", "lib",
            "libonnxruntime.so"]],
         [["o", "onnxruntime"]]⟩ =
      ⟨[], ⟨[["o", "onnxruntime-linux-x64-1.11.1.tgz"],
          ["o", "onnxruntime", "onnxruntime-linux-x64-1.11.1", "lib",
            "libonnxruntime.so"]],
         [["o", "onnxruntime"]]⟩,
        .ok ["o", "onnxruntime", "onnxruntime-linux-x64-1.11.1"]⟩ :=
  ⟨rfl,
    prebuilt_acquisition_idempotent "linux" "x86_64"
      ⟨"", true, [["onnxruntime-linux-x64-1.11.1", "lib",
        "libonnxruntime.so"]]⟩ ["o"] ⟨[], []⟩
      [.net (ORT_RELEASE_BASE_URL
          ++ "/v1.11.1/onnxruntime-linux-x64-1.11.1.tgz"),
        .extractArchive ["o", "onnxruntime-linux-x64-1.11.1.tgz"]
          ["o", "onnxruntime"]]
      ⟨[["o", "onnxruntime-linux-x64-1.11.1.tgz"],
        ["o", "onnxruntime", "onnxruntime-linux-x64-1.11.1", "lib",
          "libonnxruntime.so"]],
       [["o", "onnxruntime"]]⟩
      ["o", "onnxruntime", "onnxruntime-linux-x64-1.11.1"] rfl⟩

end OnnxBuild
